import Mathlib

/-!
Shallow embedding of the Pokemon Blue autobot control layer
(`src/battle.py`, `src/navigation.py`, `src/memory.py`) in Lean 4,
together with proofs of the stated behaviour of the battle decision
policy, the navigator and the progression engine.

Conventions:
* Python `float` values appearing in the code (the type chart entries, the
  item thresholds 0.20 / 0.50, the status-move score 0.1) are embedded as
  exact rationals (`Rat`).  Every literal involved is either exactly
  representable or, in the case of the health-item thresholds, separated
  from any reachable quotient `hp / maxHp` (with `maxHp ≤ 0xFFFF`) by far
  more than the double-rounding error, so the rational model agrees with
  the Python float comparisons on every reachable input.
* Python dictionaries that are only read through `.get` are embedded as
  functions into `Option`; the per-step retry dictionary, which is also
  mutated, is embedded as an association list.
* Fallible memory reads are assumed to succeed (the `try/except` around
  `self.gs.badges` is dead code under that assumption).
-/

-- ===========================================================================
-- battle.py — Gen 1 type constants (15 types)
-- ===========================================================================

/-- The 15 Gen 1 elemental types (`battle.py` module constants). -/
inductive PType where
  | Normal | Fighting | Flying | Poison | Ground | Rock | Bug | Ghost
  | Fire | Water | Grass | Electric | Psychic | Ice | Dragon
deriving DecidableEq, Repr, Fintype

open PType in
/-- `ALL_TYPES` from `battle.py`. -/
def ALL_TYPES : List PType :=
  [Normal, Fighting, Flying, Poison, Ground, Rock, Bug, Ghost,
   Fire, Water, Grass, Electric, Psychic, Ice, Dragon]

/-- `TYPE_CHART[NORMAL]` row. -/
def chartRowNormal : PType → Option Rat
  | .Rock => some 0.5
  | .Ghost => some 0.0
  | _ => none

/-- `TYPE_CHART[FIGHTING]` row. -/
def chartRowFighting : PType → Option Rat
  | .Normal => some 2.0
  | .Ice => some 2.0
  | .Poison => some 0.5
  | .Flying => some 0.5
  | .Psychic => some 0.5
  | .Bug => some 0.5
  | .Rock => some 2.0
  | .Ghost => some 0.0
  | _ => none

/-- `TYPE_CHART[FLYING]` row. -/
def chartRowFlying : PType → Option Rat
  | .Fighting => some 2.0
  | .Bug => some 2.0
  | .Grass => some 2.0
  | .Electric => some 0.5
  | .Rock => some 0.5
  | _ => none

/-- `TYPE_CHART[POISON]` row (Bug deliberately absent: Gen 1 quirk). -/
def chartRowPoison : PType → Option Rat
  | .Grass => some 2.0
  | .Poison => some 0.5
  | .Ground => some 0.5
  | .Rock => some 0.5
  | .Ghost => some 0.5
  | _ => none

/-- `TYPE_CHART[GROUND]` row. -/
def chartRowGround : PType → Option Rat
  | .Fire => some 2.0
  | .Electric => some 2.0
  | .Poison => some 2.0
  | .Rock => some 2.0
  | .Grass => some 0.5
  | .Bug => some 0.5
  | .Flying => some 0.0
  | _ => none

/-- `TYPE_CHART[ROCK]` row. -/
def chartRowRock : PType → Option Rat
  | .Fire => some 2.0
  | .Ice => some 2.0
  | .Flying => some 2.0
  | .Bug => some 2.0
  | .Fighting => some 0.5
  | .Ground => some 0.5
  | _ => none

/-- `TYPE_CHART[BUG]` row (Poison at 0.5: Gen 1 quirk). -/
def chartRowBug : PType → Option Rat
  | .Psychic => some 2.0
  | .Grass => some 2.0
  | .Fire => some 0.5
  | .Fighting => some 0.5
  | .Flying => some 0.5
  | .Ghost => some 0.5
  | .Poison => some 0.5
  | _ => none

/-- `TYPE_CHART[GHOST]` row (Psychic at 0.0: the famous Gen 1 bug). -/
def chartRowGhost : PType → Option Rat
  | .Normal => some 0.0
  | .Psychic => some 0.0
  | .Ghost => some 2.0
  | _ => none

/-- `TYPE_CHART[FIRE]` row. -/
def chartRowFire : PType → Option Rat
  | .Grass => some 2.0
  | .Ice => some 2.0
  | .Bug => some 2.0
  | .Fire => some 0.5
  | .Water => some 0.5
  | .Rock => some 0.5
  | .Dragon => some 0.5
  | _ => none

/-- `TYPE_CHART[WATER]` row. -/
def chartRowWater : PType → Option Rat
  | .Fire => some 2.0
  | .Ground => some 2.0
  | .Rock => some 2.0
  | .Water => some 0.5
  | .Grass => some 0.5
  | .Dragon => some 0.5
  | _ => none

/-- `TYPE_CHART[GRASS]` row. -/
def chartRowGrass : PType → Option Rat
  | .Water => some 2.0
  | .Ground => some 2.0
  | .Rock => some 2.0
  | .Fire => some 0.5
  | .Grass => some 0.5
  | .Poison => some 0.5
  | .Flying => some 0.5
  | .Bug => some 0.5
  | .Dragon => some 0.5
  | _ => none

/-- `TYPE_CHART[ELECTRIC]` row. -/
def chartRowElectric : PType → Option Rat
  | .Water => some 2.0
  | .Flying => some 2.0
  | .Electric => some 0.5
  | .Grass => some 0.5
  | .Ground => some 0.0
  | .Dragon => some 0.5
  | _ => none

/-- `TYPE_CHART[PSYCHIC]` row. -/
def chartRowPsychic : PType → Option Rat
  | .Fighting => some 2.0
  | .Poison => some 2.0
  | .Psychic => some 0.5
  | .Ghost => some 0.0
  | _ => none

/-- `TYPE_CHART[ICE]` row (Fire deliberately absent: Gen 1 quirk). -/
def chartRowIce : PType → Option Rat
  | .Grass => some 2.0
  | .Ground => some 2.0
  | .Flying => some 2.0
  | .Dragon => some 2.0
  | .Water => some 0.5
  | .Ice => some 0.5
  | _ => none

/-- `TYPE_CHART[DRAGON]` row. -/
def chartRowDragon : PType → Option Rat
  | .Dragon => some 2.0
  | _ => none

/-- `TYPE_CHART` from `battle.py` as a dict of dicts: only the non-1.0
entries are stored; a missing entry means multiplier 1.0. -/
def TYPE_CHART : PType → PType → Option Rat
  | .Normal => chartRowNormal
  | .Fighting => chartRowFighting
  | .Flying => chartRowFlying
  | .Poison => chartRowPoison
  | .Ground => chartRowGround
  | .Rock => chartRowRock
  | .Bug => chartRowBug
  | .Ghost => chartRowGhost
  | .Fire => chartRowFire
  | .Water => chartRowWater
  | .Grass => chartRowGrass
  | .Electric => chartRowElectric
  | .Psychic => chartRowPsychic
  | .Ice => chartRowIce
  | .Dragon => chartRowDragon

/-- `get_effectiveness` from `battle.py`: the multiplier starts at 1.0 and
is multiplied by the chart entry (default 1.0) for each present defender
type.  `defender_types` is a `(type1, type2)` pair whose second member may
be `None`. -/
def get_effectiveness (attack_type : PType) (defender_types : PType × Option PType) : Rat :=
  let chart := TYPE_CHART attack_type
  let m1 : Rat := 1.0 * ((chart defender_types.1).getD 1.0)
  match defender_types.2 with
  | none => m1
  | some t2 => m1 * ((chart t2).getD 1.0)

-- ===========================================================================
-- battle.py — MOVE_DATA, SPECIES_TYPES
-- ===========================================================================

/-- One `MOVE_DATA` entry: `{name, type, power, pp}`. `power = 0` means the
move does no direct damage. -/
structure MoveInfo where
  name : String
  type : PType
  power : Nat
  pp : Nat
deriving DecidableEq, Repr

/-- `MOVE_DATA` from `battle.py`: move id → move entry (ids 0x01–0x98). -/
def MOVE_DATA : Nat → Option MoveInfo
  | 0x01 => some ⟨"Pound", .Normal, 40, 35⟩
  | 0x02 => some ⟨"Karate Chop", .Fighting, 50, 25⟩
  | 0x03 => some ⟨"DoubleSlap", .Normal, 15, 10⟩
  | 0x04 => some ⟨"Comet Punch", .Normal, 18, 15⟩
  | 0x05 => some ⟨"Mega Punch", .Normal, 80, 20⟩
  | 0x06 => some ⟨"Pay Day", .Normal, 40, 20⟩
  | 0x07 => some ⟨"Fire Punch", .Fire, 75, 15⟩
  | 0x08 => some ⟨"Ice Punch", .Ice, 75, 15⟩
  | 0x09 => some ⟨"ThunderPunch", .Electric, 75, 15⟩
  | 0x0A => some ⟨"Scratch", .Normal, 40, 35⟩
  | 0x0B => some ⟨"ViceGrip", .Normal, 55, 30⟩
  | 0x0C => some ⟨"Guillotine", .Normal, 0, 5⟩
  | 0x0D => some ⟨"Razor Wind", .Normal, 80, 10⟩
  | 0x0E => some ⟨"Swords Dance", .Normal, 0, 30⟩
  | 0x0F => some ⟨"Cut", .Normal, 50, 30⟩
  | 0x10 => some ⟨"Gust", .Normal, 40, 35⟩
  | 0x11 => some ⟨"Wing Attack", .Flying, 35, 35⟩
  | 0x12 => some ⟨"Whirlwind", .Normal, 0, 20⟩
  | 0x13 => some ⟨"Fly", .Flying, 70, 15⟩
  | 0x14 => some ⟨"Bind", .Normal, 15, 20⟩
  | 0x15 => some ⟨"Slam", .Normal, 80, 20⟩
  | 0x16 => some ⟨"Vine Whip", .Grass, 35, 10⟩
  | 0x17 => some ⟨"Stomp", .Normal, 65, 20⟩
  | 0x18 => some ⟨"Double Kick", .Fighting, 30, 30⟩
  | 0x19 => some ⟨"Mega Kick", .Normal, 120, 5⟩
  | 0x1A => some ⟨"Jump Kick", .Fighting, 70, 25⟩
  | 0x1B => some ⟨"Rolling Kick", .Fighting, 60, 15⟩
  | 0x1C => some ⟨"Sand Attack", .Normal, 0, 15⟩
  | 0x1D => some ⟨"Headbutt", .Normal, 70, 15⟩
  | 0x1E => some ⟨"Horn Attack", .Normal, 65, 25⟩
  | 0x1F => some ⟨"Fury Attack", .Normal, 15, 20⟩
  | 0x20 => some ⟨"Horn Drill", .Normal, 0, 5⟩
  | 0x21 => some ⟨"Tackle", .Normal, 35, 35⟩
  | 0x22 => some ⟨"Body Slam", .Normal, 85, 15⟩
  | 0x23 => some ⟨"Wrap", .Normal, 15, 20⟩
  | 0x24 => some ⟨"Take Down", .Normal, 90, 20⟩
  | 0x25 => some ⟨"Thrash", .Normal, 90, 20⟩
  | 0x26 => some ⟨"Double-Edge", .Normal, 100, 15⟩
  | 0x27 => some ⟨"Tail Whip", .Normal, 0, 30⟩
  | 0x28 => some ⟨"Poison Sting", .Poison, 15, 35⟩
  | 0x29 => some ⟨"Twineedle", .Bug, 25, 20⟩
  | 0x2A => some ⟨"Pin Missile", .Bug, 14, 20⟩
  | 0x2B => some ⟨"Leer", .Normal, 0, 30⟩
  | 0x2C => some ⟨"Bite", .Normal, 60, 25⟩
  | 0x2D => some ⟨"Growl", .Normal, 0, 40⟩
  | 0x2E => some ⟨"Roar", .Normal, 0, 20⟩
  | 0x2F => some ⟨"Sing", .Normal, 0, 15⟩
  | 0x30 => some ⟨"Supersonic", .Normal, 0, 20⟩
  | 0x31 => some ⟨"SonicBoom", .Normal, 0, 20⟩
  | 0x32 => some ⟨"Disable", .Normal, 0, 20⟩
  | 0x33 => some ⟨"Acid", .Poison, 40, 30⟩
  | 0x34 => some ⟨"Ember", .Fire, 40, 25⟩
  | 0x35 => some ⟨"Flamethrower", .Fire, 95, 15⟩
  | 0x36 => some ⟨"Mist", .Ice, 0, 30⟩
  | 0x37 => some ⟨"Water Gun", .Water, 40, 25⟩
  | 0x38 => some ⟨"Hydro Pump", .Water, 120, 5⟩
  | 0x39 => some ⟨"Surf", .Water, 95, 15⟩
  | 0x3A => some ⟨"Ice Beam", .Ice, 95, 10⟩
  | 0x3B => some ⟨"Blizzard", .Ice, 120, 5⟩
  | 0x3C => some ⟨"Psybeam", .Psychic, 65, 20⟩
  | 0x3D => some ⟨"BubbleBeam", .Water, 65, 20⟩
  | 0x3E => some ⟨"Aurora Beam", .Ice, 65, 20⟩
  | 0x3F => some ⟨"Hyper Beam", .Normal, 150, 5⟩
  | 0x40 => some ⟨"Peck", .Flying, 35, 35⟩
  | 0x41 => some ⟨"Drill Peck", .Flying, 80, 20⟩
  | 0x42 => some ⟨"Submission", .Fighting, 80, 25⟩
  | 0x43 => some ⟨"Low Kick", .Fighting, 50, 20⟩
  | 0x44 => some ⟨"Counter", .Fighting, 0, 20⟩
  | 0x45 => some ⟨"Seismic Toss", .Fighting, 0, 20⟩
  | 0x46 => some ⟨"Strength", .Normal, 80, 15⟩
  | 0x47 => some ⟨"Absorb", .Grass, 20, 20⟩
  | 0x48 => some ⟨"Mega Drain", .Grass, 40, 10⟩
  | 0x49 => some ⟨"Leech Seed", .Grass, 0, 10⟩
  | 0x4A => some ⟨"Growth", .Normal, 0, 40⟩
  | 0x4B => some ⟨"Razor Leaf", .Grass, 55, 25⟩
  | 0x4C => some ⟨"SolarBeam", .Grass, 120, 10⟩
  | 0x4D => some ⟨"PoisonPowder", .Poison, 0, 35⟩
  | 0x4E => some ⟨"Stun Spore", .Grass, 0, 30⟩
  | 0x4F => some ⟨"Sleep Powder", .Grass, 0, 15⟩
  | 0x50 => some ⟨"Petal Dance", .Grass, 70, 20⟩
  | 0x51 => some ⟨"String Shot", .Bug, 0, 40⟩
  | 0x52 => some ⟨"Dragon Rage", .Dragon, 0, 10⟩
  | 0x53 => some ⟨"Fire Spin", .Fire, 15, 15⟩
  | 0x54 => some ⟨"Thundershock", .Electric, 40, 30⟩
  | 0x55 => some ⟨"Thunderbolt", .Electric, 95, 15⟩
  | 0x56 => some ⟨"Thunder Wave", .Electric, 0, 20⟩
  | 0x57 => some ⟨"Thunder", .Electric, 120, 10⟩
  | 0x58 => some ⟨"Rock Throw", .Rock, 50, 15⟩
  | 0x59 => some ⟨"Earthquake", .Ground, 100, 10⟩
  | 0x5A => some ⟨"Fissure", .Ground, 0, 5⟩
  | 0x5B => some ⟨"Dig", .Ground, 100, 10⟩
  | 0x5C => some ⟨"Toxic", .Poison, 0, 10⟩
  | 0x5D => some ⟨"Confusion", .Psychic, 50, 25⟩
  | 0x5E => some ⟨"Psychic", .Psychic, 90, 10⟩
  | 0x5F => some ⟨"Hypnosis", .Psychic, 0, 20⟩
  | 0x60 => some ⟨"Meditate", .Psychic, 0, 40⟩
  | 0x61 => some ⟨"Agility", .Psychic, 0, 30⟩
  | 0x62 => some ⟨"Quick Attack", .Normal, 40, 30⟩
  | 0x63 => some ⟨"Rage", .Normal, 20, 20⟩
  | 0x64 => some ⟨"Teleport", .Psychic, 0, 20⟩
  | 0x65 => some ⟨"Night Shade", .Ghost, 0, 15⟩
  | 0x66 => some ⟨"Mimic", .Normal, 0, 10⟩
  | 0x67 => some ⟨"Screech", .Normal, 0, 40⟩
  | 0x68 => some ⟨"Double Team", .Normal, 0, 15⟩
  | 0x69 => some ⟨"Recover", .Normal, 0, 20⟩
  | 0x6A => some ⟨"Harden", .Normal, 0, 30⟩
  | 0x6B => some ⟨"Minimize", .Normal, 0, 20⟩
  | 0x6C => some ⟨"Smokescreen", .Normal, 0, 20⟩
  | 0x6D => some ⟨"Confuse Ray", .Ghost, 0, 10⟩
  | 0x6E => some ⟨"Withdraw", .Water, 0, 40⟩
  | 0x6F => some ⟨"Defense Curl", .Normal, 0, 40⟩
  | 0x70 => some ⟨"Barrier", .Psychic, 0, 30⟩
  | 0x71 => some ⟨"Light Screen", .Psychic, 0, 30⟩
  | 0x72 => some ⟨"Haze", .Ice, 0, 30⟩
  | 0x73 => some ⟨"Reflect", .Psychic, 0, 20⟩
  | 0x74 => some ⟨"Focus Energy", .Normal, 0, 30⟩
  | 0x75 => some ⟨"Bide", .Normal, 0, 10⟩
  | 0x76 => some ⟨"Metronome", .Normal, 0, 10⟩
  | 0x77 => some ⟨"Mirror Move", .Flying, 0, 20⟩
  | 0x78 => some ⟨"Self-Destruct", .Normal, 200, 5⟩
  | 0x79 => some ⟨"Egg Bomb", .Normal, 100, 10⟩
  | 0x7A => some ⟨"Lick", .Ghost, 20, 30⟩
  | 0x7B => some ⟨"Smog", .Poison, 20, 20⟩
  | 0x7C => some ⟨"Sludge", .Poison, 65, 20⟩
  | 0x7D => some ⟨"Bone Club", .Ground, 65, 20⟩
  | 0x7E => some ⟨"Fire Blast", .Fire, 120, 5⟩
  | 0x7F => some ⟨"Waterfall", .Water, 80, 15⟩
  | 0x80 => some ⟨"Clamp", .Water, 35, 10⟩
  | 0x81 => some ⟨"Swift", .Normal, 60, 20⟩
  | 0x82 => some ⟨"Skull Bash", .Normal, 100, 15⟩
  | 0x83 => some ⟨"Spike Cannon", .Normal, 20, 15⟩
  | 0x84 => some ⟨"Constrict", .Normal, 10, 35⟩
  | 0x85 => some ⟨"Amnesia", .Psychic, 0, 20⟩
  | 0x86 => some ⟨"Kinesis", .Psychic, 0, 15⟩
  | 0x87 => some ⟨"Soft-Boiled", .Normal, 0, 10⟩
  | 0x88 => some ⟨"Hi Jump Kick", .Fighting, 85, 20⟩
  | 0x89 => some ⟨"Glare", .Normal, 0, 30⟩
  | 0x8A => some ⟨"Dream Eater", .Psychic, 100, 15⟩
  | 0x8B => some ⟨"Poison Gas", .Poison, 0, 40⟩
  | 0x8C => some ⟨"Explosion", .Normal, 250, 5⟩
  | 0x8D => some ⟨"Fury Swipes", .Normal, 18, 15⟩
  | 0x8E => some ⟨"Bonemerang", .Ground, 50, 10⟩
  | 0x8F => some ⟨"Rest", .Psychic, 0, 10⟩
  | 0x90 => some ⟨"Rock Slide", .Rock, 75, 10⟩
  | 0x91 => some ⟨"Hyper Fang", .Normal, 80, 15⟩
  | 0x92 => some ⟨"Sharpen", .Normal, 0, 30⟩
  | 0x93 => some ⟨"Conversion", .Normal, 0, 30⟩
  | 0x94 => some ⟨"Tri Attack", .Normal, 80, 10⟩
  | 0x95 => some ⟨"Super Fang", .Normal, 0, 10⟩
  | 0x96 => some ⟨"Slash", .Normal, 70, 20⟩
  | 0x97 => some ⟨"Substitute", .Normal, 0, 10⟩
  | 0x98 => some ⟨"Struggle", .Normal, 50, 1⟩
  | _ => none

/-- `SPECIES_TYPES` from `battle.py`: internal species index → `(type1, type2)`
with the name field of `POKEMON_TYPES` dropped. -/
def SPECIES_TYPES : Nat → Option (PType × Option PType)
  | 0x01 => some (.Ground, some .Rock)
  | 0x02 => some (.Normal, none)
  | 0x03 => some (.Poison, none)
  | 0x04 => some (.Normal, none)
  | 0x05 => some (.Normal, some .Flying)
  | 0x06 => some (.Electric, none)
  | 0x07 => some (.Poison, some .Ground)
  | 0x08 => some (.Water, some .Psychic)
  | 0x09 => some (.Grass, some .Poison)
  | 0x0A => some (.Grass, some .Psychic)
  | 0x0B => some (.Normal, none)
  | 0x0C => some (.Grass, some .Psychic)
  | 0x0D => some (.Poison, none)
  | 0x0E => some (.Ghost, some .Poison)
  | 0x0F => some (.Poison, none)
  | 0x10 => some (.Poison, some .Ground)
  | 0x11 => some (.Ground, none)
  | 0x12 => some (.Ground, some .Rock)
  | 0x13 => some (.Water, some .Ice)
  | 0x14 => some (.Fire, none)
  | 0x15 => some (.Psychic, none)
  | 0x16 => some (.Water, some .Flying)
  | 0x17 => some (.Water, none)
  | 0x18 => some (.Water, some .Poison)
  | 0x19 => some (.Ghost, some .Poison)
  | 0x1A => some (.Bug, some .Flying)
  | 0x1B => some (.Water, none)
  | 0x1C => some (.Water, none)
  | 0x1D => some (.Bug, none)
  | 0x1E => some (.Grass, none)
  | 0x20 => some (.Fire, none)
  | 0x21 => some (.Rock, some .Ground)
  | 0x22 => some (.Normal, some .Flying)
  | 0x23 => some (.Normal, some .Flying)
  | 0x24 => some (.Water, some .Psychic)
  | 0x25 => some (.Psychic, none)
  | 0x26 => some (.Rock, some .Ground)
  | 0x27 => some (.Normal, none)
  | 0x28 => some (.Fighting, none)
  | 0x29 => some (.Psychic, none)
  | 0x2A => some (.Fighting, none)
  | 0x2B => some (.Fighting, none)
  | 0x2C => some (.Poison, none)
  | 0x2D => some (.Bug, some .Grass)
  | 0x2E => some (.Water, none)
  | 0x2F => some (.Psychic, none)
  | 0x30 => some (.Rock, some .Ground)
  | 0x32 => some (.Fire, none)
  | 0x34 => some (.Electric, none)
  | 0x35 => some (.Electric, none)
  | 0x36 => some (.Poison, none)
  | 0x38 => some (.Fighting, none)
  | 0x39 => some (.Water, none)
  | 0x3A => some (.Ground, none)
  | 0x3B => some (.Normal, none)
  | 0x3F => some (.Normal, some .Flying)
  | 0x40 => some (.Bug, some .Poison)
  | 0x41 => some (.Dragon, some .Flying)
  | 0x45 => some (.Normal, some .Flying)
  | 0x46 => some (.Water, none)
  | 0x47 => some (.Ice, some .Psychic)
  | 0x48 => some (.Fire, some .Flying)
  | 0x49 => some (.Ice, some .Flying)
  | 0x4A => some (.Electric, some .Flying)
  | 0x4B => some (.Normal, none)
  | 0x4C => some (.Normal, none)
  | 0x4D => some (.Water, none)
  | 0x51 => some (.Fire, none)
  | 0x52 => some (.Fire, none)
  | 0x53 => some (.Electric, none)
  | 0x54 => some (.Electric, none)
  | 0x57 => some (.Dragon, none)
  | 0x58 => some (.Dragon, none)
  | 0x59 => some (.Rock, some .Water)
  | 0x5A => some (.Rock, some .Water)
  | 0x5B => some (.Water, none)
  | 0x5C => some (.Water, none)
  | 0x5F => some (.Ground, none)
  | 0x60 => some (.Ground, none)
  | 0x61 => some (.Rock, some .Water)
  | 0x62 => some (.Rock, some .Water)
  | 0x63 => some (.Normal, none)
  | 0x64 => some (.Normal, none)
  | 0x65 => some (.Normal, none)
  | 0x66 => some (.Fire, none)
  | 0x67 => some (.Electric, none)
  | 0x68 => some (.Water, none)
  | 0x69 => some (.Fighting, none)
  | 0x6A => some (.Poison, some .Flying)
  | 0x6B => some (.Poison, none)
  | 0x6C => some (.Bug, some .Grass)
  | 0x6D => some (.Water, none)
  | 0x6E => some (.Water, some .Fighting)
  | 0x6F => some (.Bug, some .Poison)
  | 0x70 => some (.Bug, some .Poison)
  | 0x71 => some (.Bug, some .Poison)
  | 0x73 => some (.Normal, some .Flying)
  | 0x74 => some (.Fighting, none)
  | 0x75 => some (.Ground, none)
  | 0x76 => some (.Bug, some .Poison)
  | 0x77 => some (.Water, some .Ice)
  | 0x7A => some (.Bug, none)
  | 0x7B => some (.Bug, none)
  | 0x7C => some (.Bug, some .Flying)
  | 0x7D => some (.Fighting, none)
  | 0x7F => some (.Water, none)
  | 0x80 => some (.Psychic, none)
  | 0x81 => some (.Poison, some .Flying)
  | 0x82 => some (.Psychic, none)
  | 0x83 => some (.Normal, none)
  | 0x84 => some (.Water, none)
  | 0x87 => some (.Poison, none)
  | 0x89 => some (.Water, none)
  | 0x8A => some (.Water, some .Ice)
  | 0x8C => some (.Electric, none)
  | 0x8D => some (.Normal, none)
  | 0x8E => some (.Poison, none)
  | 0x8F => some (.Normal, none)
  | 0x90 => some (.Ground, none)
  | 0x92 => some (.Ghost, some .Poison)
  | 0x93 => some (.Psychic, none)
  | 0x94 => some (.Psychic, none)
  | 0x95 => some (.Normal, some .Flying)
  | 0x96 => some (.Normal, some .Flying)
  | 0x97 => some (.Water, some .Psychic)
  | 0x98 => some (.Grass, some .Poison)
  | 0x99 => some (.Grass, some .Poison)
  | 0x9A => some (.Water, some .Poison)
  | 0x9C => some (.Water, none)
  | 0x9D => some (.Water, none)
  | 0xA2 => some (.Fire, none)
  | 0xA3 => some (.Fire, none)
  | 0xA4 => some (.Normal, none)
  | 0xA5 => some (.Normal, none)
  | 0xA6 => some (.Poison, none)
  | 0xA7 => some (.Poison, none)
  | 0xA8 => some (.Rock, some .Ground)
  | 0xA9 => some (.Normal, none)
  | 0xAA => some (.Rock, some .Flying)
  | 0xAC => some (.Electric, none)
  | 0xAF => some (.Fire, none)
  | 0xB0 => some (.Water, none)
  | 0xB1 => some (.Fire, none)
  | 0xB2 => some (.Water, none)
  | 0xB3 => some (.Fire, some .Flying)
  | 0xBA => some (.Grass, some .Poison)
  | 0xBB => some (.Grass, some .Poison)
  | 0xBC => some (.Grass, some .Poison)
  | 0xBD => some (.Grass, some .Poison)
  | 0xBE => some (.Grass, some .Poison)
  | 0xBF => some (.Grass, some .Poison)
  | _ => none

/-- Spec-side reading ("Modelled from the spec" wording of C5): a single
chart lookup with missing entries treated as 1.0. -/
def chartLookup (a d : PType) : Rat := (TYPE_CHART a d).getD 1.0

/-- Spec-side reading: the contribution of the (possibly absent) second
defending type; an absent type contributes 1.0. -/
def chartLookupOpt (a : PType) (d : Option PType) : Rat :=
  match d with
  | none => 1.0
  | some t => chartLookup a t

-- ===========================================================================
-- battle.py — BattleAI over a battle-memory snapshot
-- ===========================================================================

/-- The bytes of Game Boy memory that `BattleAI` reads (one field per
address constant in `battle.py`). -/
structure BattleMem where
  in_battle : Nat      -- 0xD057: 0 = none, 1 = wild, 2 = trainer
  move1 : Nat          -- 0xD01C
  move2 : Nat          -- 0xD01D
  move3 : Nat          -- 0xD01E
  move4 : Nat          -- 0xD01F
  pp1 : Nat            -- 0xD02D
  pp2 : Nat            -- 0xD02E
  pp3 : Nat            -- 0xD02F
  pp4 : Nat            -- 0xD030
  hp_hi : Nat          -- 0xD015
  hp_lo : Nat          -- 0xD016
  max_hp_hi : Nat      -- 0xD023
  max_hp_lo : Nat      -- 0xD024
  player_species : Nat -- 0xD014
  enemy_species : Nat  -- 0xCFD9
deriving DecidableEq, Repr

/-- `BattleAI._read16`: big-endian 16-bit value from two bytes. -/
def read16 (hi lo : Nat) : Nat := hi <<< 8 ||| lo

/-- `BattleAI.is_in_battle`. -/
def is_in_battle (m : BattleMem) : Bool := m.in_battle != 0

/-- `BattleAI.is_wild_battle`. -/
def is_wild_battle (m : BattleMem) : Bool := m.in_battle == 1

/-- `BattleAI.get_player_hp`. -/
def get_player_hp (m : BattleMem) : Nat := read16 m.hp_hi m.hp_lo

/-- `BattleAI.get_player_max_hp`. -/
def get_player_max_hp (m : BattleMem) : Nat := read16 m.max_hp_hi m.max_hp_lo

/-- `BattleAI.get_move_ids`: the 4 move-slot ids (0 = empty slot). -/
def get_move_ids (m : BattleMem) : List Nat := [m.move1, m.move2, m.move3, m.move4]

/-- `BattleAI.get_move_pps`: the 4 remaining-PP values. -/
def get_move_pps (m : BattleMem) : List Nat := [m.pp1, m.pp2, m.pp3, m.pp4]

/-- `BattleAI.get_enemy_types` (unknown species defaults to `(NORMAL, None)`). -/
def get_enemy_types (m : BattleMem) : PType × Option PType :=
  (SPECIES_TYPES m.enemy_species).getD (.Normal, none)

/-- Loop state of `BattleAI.get_best_move`: `best_slot`/`fallback_slot`
are `Option Nat` standing for the Python `-1` sentinel. -/
structure BestState where
  best_slot : Option Nat
  best_score : Rat
  fallback_slot : Option Nat
deriving DecidableEq, Repr

/-- Score assigned by `get_best_move` to a catalogued move: 0.1 for
zero-power (status) moves, `power * effectiveness` otherwise. -/
def scoreOf (enemy : PType × Option PType) (mv : MoveInfo) : Rat :=
  if mv.power = 0 then 0.1 else (mv.power : Rat) * get_effectiveness mv.type enemy

/-- One iteration of the `for slot in range(4)` loop of `get_best_move`:
skip empty/exhausted slots, record the first usable slot as fallback,
skip ids missing from `MOVE_DATA`, then take the slot iff its score is
strictly greater than the best so far. -/
def bestStep (enemy : PType × Option PType) (s : BestState)
    (slot mid pp : Nat) : BestState :=
  if mid = 0 ∨ pp = 0 then s
  else
    let s1 := if s.fallback_slot = none then { s with fallback_slot := some slot } else s
    match MOVE_DATA mid with
    | none => s1
    | some mv =>
      let score := scoreOf enemy mv
      if s1.best_score < score then
        { s1 with best_slot := some slot, best_score := score }
      else s1

/-- The whole slot loop of `get_best_move`, indices counting up from `i`. -/
def bestLoop (enemy : PType × Option PType) : Nat → List (Nat × Nat) → BestState → BestState
  | _, [], s => s
  | i, (mid, pp) :: rest, s => bestLoop enemy (i + 1) rest (bestStep enemy s i mid pp)

/-- `BattleAI.get_best_move`: best-scoring slot, else first slot with PP,
else slot 0. -/
def get_best_move (m : BattleMem) : Nat :=
  let enemy := get_enemy_types m
  let final := bestLoop enemy 0 ((get_move_ids m).zip (get_move_pps m)) ⟨none, -1.0, none⟩
  match final.best_slot with
  | some b => b
  | none =>
    match final.fallback_slot with
    | some f => f
    | none => 0

/-- `BattleAI.should_use_item`.  The Python float thresholds 0.20 / 0.50 are
embedded as exact rationals: with `max_hp ≤ 0xFFFF` every reachable
quotient is farther from 1/5 than the double-rounding error, and 0.5 is
exact, so the rational comparisons agree with the float ones. -/
def should_use_item (m : BattleMem) : Option String :=
  let current_hp := get_player_hp m
  let max_hp := get_player_max_hp m
  if max_hp = 0 then none
  else
    let hpq : Rat := (current_hp : Rat) / (max_hp : Rat)
    if hpq < 0.20 then some "MAX POTION"
    else if hpq < 0.50 then some "POTION"
    else none

/-- `BattleAI.should_flee`: wild battles only; flee iff every non-empty
slot has 0 PP (the loop returns False as soon as it sees a usable slot). -/
def should_flee (m : BattleMem) : Bool :=
  if ¬ is_wild_battle m then false
  else
    ((get_move_ids m).zip (get_move_pps m)).all
      (fun p => !(decide (p.1 ≠ 0 ∧ p.2 > 0)))

/-- The action dictionary returned by `BattleAI.get_action`. -/
inductive BattleAction where
  | fight (slot : Nat)
  | item (name : String)
  | flee
  | wait
deriving DecidableEq, Repr

/-- `BattleAI.get_action`: wait if not in battle, else flee check, else
item check (any returned item string is non-empty, hence truthy), else
fight with the best move slot. -/
def get_action (m : BattleMem) : BattleAction :=
  if ¬ is_in_battle m then .wait
  else if should_flee m then .flee
  else
    match should_use_item m with
    | some it => .item it
    | none => .fight (get_best_move m)

-- ===========================================================================
-- Spec-side definitions for C6 (the amended best-move description)
-- ===========================================================================

/-- A move slot is usable when its id is non-zero and it has PP left. -/
def usableSlot (p : Nat × Nat) : Bool := p.1 != 0 && p.2 != 0

/-- Modelled from the claim's words: the scored slots, in slot order —
each usable slot whose move id is in the catalogue, paired with its score. -/
def scoredSlots (enemy : PType × Option PType) (slots : List (Nat × Nat)) :
    List (Nat × Rat) :=
  (slots.enum).filterMap fun p =>
    if usableSlot p.2 then (MOVE_DATA p.2.1).map (fun mv => (p.1, scoreOf enemy mv))
    else none

/-- One step of the first-strict-argmax scan: a later entry replaces the
current best only when its score is strictly greater. -/
def argmaxStep (acc : Option (Nat × Rat)) (p : Nat × Rat) : Option (Nat × Rat) :=
  match acc with
  | none => some p
  | some q => if q.2 < p.2 then some p else acc

/-- Modelled from the claim's words: first entry with the strictly highest
score. -/
def argmaxFirst (l : List (Nat × Rat)) : Option (Nat × Rat) :=
  l.foldl argmaxStep none

/-- Modelled from the claim's words: index of the first usable slot. -/
def firstUsable (slots : List (Nat × Nat)) : Option Nat :=
  (slots.enum).findSome? fun p => if usableSlot p.2 then some p.1 else none

/-- Modelled from the claim's words (as amended): return the first slot
with the strictly highest score among catalogued usable slots; if no slot
could be scored, the first usable slot; if none, slot 0. -/
def bestMoveSpec (m : BattleMem) : Nat :=
  let enemy := get_enemy_types m
  let slots := (get_move_ids m).zip (get_move_pps m)
  match argmaxFirst (scoredSlots enemy slots) with
  | some p => p.1
  | none =>
    match firstUsable slots with
    | some f => f
    | none => 0

-- ===========================================================================
-- Proof-bridge definitions for C6, and concrete inputs for the witnesses
-- ===========================================================================

/-- First-some combination (the running fallback slot). -/
def optOr (a b : Option Nat) : Option Nat :=
  match a with
  | some x => some x
  | none => b

/-- The `best_score` encoded by an optional `(slot, score)` pair: the
Python loop starts from the sentinel score `-1.0`. -/
def score0 (bo : Option (Nat × Rat)) : Rat := (bo.map Prod.snd).getD (-1.0)

/-- Repackage an optional best `(slot, score)` pair and a fallback slot as
the loop state of `get_best_move`. -/
def packBest (bo : Option (Nat × Rat)) (f : Option Nat) : BestState :=
  ⟨bo.map Prod.fst, score0 bo, f⟩

/-- `scoredSlots` with slot indices counting up from `i` (matching the
suffix of the loop still to run). -/
def scoredFrom (enemy : PType × Option PType) (i : Nat) (slots : List (Nat × Nat)) :
    List (Nat × Rat) :=
  (slots.enumFrom i).filterMap fun p =>
    if usableSlot p.2 then (MOVE_DATA p.2.1).map (fun mv => (p.1, scoreOf enemy mv))
    else none

/-- `firstUsable` with slot indices counting up from `i`. -/
def firstUsableFrom (i : Nat) (slots : List (Nat × Nat)) : Option Nat :=
  (slots.enumFrom i).findSome? fun p => if usableSlot p.2 then some p.1 else none

/-- Counterexample input for C6: slot 0 holds an id (0x99) outside the
move catalogue with PP left, slot 1 holds Lick (Ghost, damaging) with PP
left, and the enemy species byte is not in `SPECIES_TYPES`, so the enemy
defaults to pure Normal and Lick scores 20 × 0 = 0. -/
def memC6ce : BattleMem :=
  { in_battle := 1
    move1 := 0x99, move2 := 0x7A, move3 := 0, move4 := 0
    pp1 := 5, pp2 := 5, pp3 := 0, pp4 := 0
    hp_hi := 0, hp_lo := 20, max_hp_hi := 0, max_hp_lo := 20
    player_species := 0, enemy_species := 0 }

/-- Witness input: a wild battle with every slot empty or out of PP. -/
def memWildDead : BattleMem :=
  { in_battle := 1
    move1 := 0x21, move2 := 0, move3 := 0x0A, move4 := 0
    pp1 := 0, pp2 := 9, pp3 := 0, pp4 := 0
    hp_hi := 0, hp_lo := 11, max_hp_hi := 0, max_hp_lo := 25
    player_species := 0xB0, enemy_species := 0xA4 }

/-- Witness input: the same dead move set in a trainer battle. -/
def memTrainer : BattleMem :=
  { memWildDead with in_battle := 2 }

/-- Witness input for the item thresholds: hp/max = 1/5 exactly. -/
def memC7 : BattleMem :=
  { in_battle := 1
    move1 := 0x21, move2 := 0, move3 := 0, move4 := 0
    pp1 := 9, pp2 := 0, pp3 := 0, pp4 := 0
    hp_hi := 0, hp_lo := 1, max_hp_hi := 0, max_hp_lo := 5
    player_species := 0xB0, enemy_species := 0xA4 }

/-- Witness input for the zero-max-HP guard. -/
def memC10 : BattleMem :=
  { in_battle := 1
    move1 := 0x21, move2 := 0, move3 := 0, move4 := 0
    pp1 := 9, pp2 := 0, pp3 := 0, pp4 := 0
    hp_hi := 0, hp_lo := 0, max_hp_hi := 0, max_hp_lo := 0
    player_species := 0, enemy_species := 0 }


-- ===========================================================================
-- navigation.py — ProgressionManager data and operations
-- ===========================================================================

def STEP_ORDER : List String :=
  ["pallet_start", "route1_to_viridian", "viridian_parcel", "viridian_forest",
   "pewter_brock", "mt_moon", "cerulean_misty", "nugget_bridge_bill",
   "vermilion_ltsurge", "rock_tunnel", "celadon_erika", "pokemon_tower",
   "saffron_sabrina", "fuchsia_koga", "cinnabar_blaine", "viridian_giovanni",
   "elite_four", "game_complete"]

def STALL_WINDOW : Nat := 3
def STALL_MAX_RETRIES : Nat := 5

def dispatchSteps : List String :=
  ["pallet_start", "route1_to_viridian", "viridian_parcel", "viridian_forest",
   "pewter_brock", "mt_moon", "cerulean_misty", "nugget_bridge_bill",
   "vermilion_ltsurge", "rock_tunnel", "celadon_erika", "pokemon_tower",
   "saffron_sabrina", "fuchsia_koga", "cinnabar_blaine", "viridian_giovanni",
   "elite_four"]

def popcountAux : Nat → Nat → Nat
  | 0, _ => 0
  | _ + 1, 0 => 0
  | fuel + 1, n + 1 => ((n + 1) % 2) + popcountAux fuel ((n + 1) / 2)

def popcount (n : Nat) : Nat := popcountAux n n

def stepRanges : Nat → List String
  | 0 => ["pallet_start", "route1_to_viridian", "viridian_parcel",
          "viridian_forest", "pewter_brock"]
  | 1 => ["mt_moon", "cerulean_misty"]
  | 2 => ["nugget_bridge_bill", "vermilion_ltsurge"]
  | 3 => ["rock_tunnel", "celadon_erika"]
  | 4 => ["pokemon_tower", "saffron_sabrina", "celadon_erika"]
  | 5 => ["fuchsia_koga", "saffron_sabrina"]
  | 6 => ["cinnabar_blaine", "fuchsia_koga"]
  | 7 => ["viridian_giovanni"]
  | 8 => ["elite_four"]
  | _ => []

def get_current_step (saved : String) (badges : Nat) : String :=
  let badge_count := popcount badges
  let valid_steps := stepRanges badge_count
  if saved ∈ valid_steps then saved
  else
    match valid_steps with
    | [] => "game_complete"
    | v :: _ => v

def badge_to_step : Nat → Option String
  | 1 => some "mt_moon"
  | 2 => some "nugget_bridge_bill"
  | 3 => some "rock_tunnel"
  | 4 => some "pokemon_tower"
  | 5 => some "fuchsia_koga"
  | 6 => some "cinnabar_blaine"
  | 7 => some "viridian_giovanni"
  | 8 => some "elite_four"
  | _ => none

structure PersistState where
  step : String
  badges : Nat
  completed_steps : List String
deriving DecidableEq, Repr

abbrev Snap := String × Nat × Nat × Nat

structure PMState where
  state : PersistState
  disk : PersistState
  stall_history : List Snap
  stall_retries : List (String × Nat)
deriving DecidableEq, Repr

structure GSView where
  badges : Nat
  map_id : Nat
  player_x : Nat
  player_y : Nat
deriving DecidableEq, Repr

def dictFind (d : List (String × Nat)) (k : String) : Option Nat :=
  (d.find? (fun q => q.1 == k)).map Prod.snd

def dictGetD (d : List (String × Nat)) (k : String) : Nat :=
  (dictFind d k).getD 0

def dictPop (d : List (String × Nat)) (k : String) : List (String × Nat) :=
  d.filter (fun q => q.1 != k)

def dictSet (d : List (String × Nat)) (k : String) (v : Nat) : List (String × Nat) :=
  (k, v) :: dictPop d k

def save_state (p : PMState) : PMState := { p with disk := p.state }

def mark_complete (gsBadges : Nat) (step_name : String) (p : PMState) : PMState :=
  let comp :=
    if step_name ∈ p.state.completed_steps then p.state.completed_steps
    else p.state.completed_steps ++ [step_name]
  let newStep :=
    if step_name ∈ STEP_ORDER ∧ STEP_ORDER.indexOf step_name < STEP_ORDER.length - 1
    then STEP_ORDER.getD (STEP_ORDER.indexOf step_name + 1) p.state.step
    else p.state.step
  let st' : PersistState := ⟨newStep, gsBadges, comp⟩
  { p with state := st', disk := st' }

def sync_with_badges (p : PMState) (badges : Nat) : PMState :=
  let badge_count := popcount badges
  match badge_to_step badge_count with
  | none => p
  | some expected =>
    if p.state.step ∈ STEP_ORDER then
      if STEP_ORDER.indexOf p.state.step < STEP_ORDER.indexOf expected then
        let st' : PersistState := { p.state with step := expected, badges := badges }
        { p with state := st', disk := st' }
      else p
    else
      let st' : PersistState := { p.state with step := expected, badges := badges }
      { p with state := st', disk := st' }

def pushWindow (hist : List Snap) (snap : Snap) : List Snap :=
  let h := hist ++ [snap]
  if h.length > STALL_WINDOW then h.tail else h

def stallCond (step : String) (mapId : Nat) (hist : List Snap) : Bool :=
  hist.length == STALL_WINDOW && hist.all (fun h => h.1 == step && h.2.1 == mapId)

inductive RunOutcome where
  | ranHandler (s : String)
  | forcedSkip (s : String)
  | gameComplete
  | unknownStep (s : String)
deriving DecidableEq, Repr

abbrev HandlerFn := String → PersistState × PersistState → PersistState × PersistState

def runDispatch (handler : HandlerFn) (step : String) (p : PMState) : PMState × RunOutcome :=
  if step ∈ dispatchSteps then
    let pr := handler step (p.state, p.disk)
    ({ p with state := pr.1, disk := pr.2 }, .ranHandler step)
  else if step == "game_complete" then (p, .gameComplete)
  else (p, .unknownStep step)

def run_next_step (handler : HandlerFn) (gPre gPost : GSView) (p : PMState) :
    PMState × RunOutcome :=
  let step := get_current_step p.state.step gPre.badges
  let snap : Snap := (step, gPost.map_id, gPost.player_x, gPost.player_y)
  let hist := pushWindow p.stall_history snap
  let p1 := { p with stall_history := hist }
  if stallCond step gPost.map_id hist then
    let retries := dictGetD p1.stall_retries step + 1
    let p2 := { p1 with stall_retries := dictSet p1.stall_retries step retries }
    if retries ≥ STALL_MAX_RETRIES then
      let p3 := { p2 with stall_history := [], stall_retries := dictPop p2.stall_retries step }
      (mark_complete gPost.badges step p3, .forcedSkip step)
    else runDispatch handler step p2
  else runDispatch handler step p1


/-- Handler oracle for the C1 witness: a handler that changes nothing. -/
def handlerW : HandlerFn := fun _ pr => pr

/-- Pre-update observation for the C1 witness. -/
def gsvPreW : GSView := ⟨0, 1, 6, 4⟩

/-- Post-update observation for the C1 witness. -/
def gsvPostW : GSView := ⟨0, 1, 6, 4⟩

/-- C1 witness state: two matching snapshots already in the window and a
retry counter standing at 4 for the current step. -/
def pmW : PMState :=
  { state := ⟨"pallet_start", 0, []⟩
    disk := ⟨"pallet_start", 0, []⟩
    stall_history := [("pallet_start", 1, 4, 4), ("pallet_start", 1, 5, 4)]
    stall_retries := [("pallet_start", 4)] }

/-- C3 witness state: fresh persisted state at the first step. -/
def pmSyncW : PMState :=
  { state := ⟨"pallet_start", 0, []⟩
    disk := ⟨"pallet_start", 0, []⟩
    stall_history := []
    stall_retries := [] }


-- ===========================================================================
-- navigation.py — Direction and the Navigator movement model
-- ===========================================================================

/-- The `Direction` enum from `navigation.py`. -/
inductive Direction where
  | up | down | left | right
deriving DecidableEq, Repr

/-- `Direction.opposite`. -/
def Direction.opposite : Direction → Direction
  | .up => .down
  | .down => .up
  | .left => .right
  | .right => .left

/-- `Direction.perpendiculars`: `(LEFT, RIGHT)` for vertical directions,
`(UP, DOWN)` otherwise. -/
def Direction.perpendiculars : Direction → Direction × Direction
  | .up => (.left, .right)
  | .down => (.left, .right)
  | .left => (.up, .down)
  | .right => (.up, .down)

/-- `Navigator.MAX_STUCK_TRIES`. -/
def MAX_STUCK_TRIES : Nat := 5

/-- `Navigator.ESCAPE_STEPS`. -/
def ESCAPE_STEPS : Nat := 3

/-- The navigation-relevant game state (player position and battle flag),
re-read by `gs.update()`; since the model state is the ground truth, the
refresh is the identity. -/
structure GState where
  x : Int
  y : Int
  in_battle : Bool
deriving DecidableEq, Repr

/-- The emulated world's response to one 16-frame directional press: the
new game state after `move_one_step`'s button press, ticks and refresh. -/
abbrev NavEnv := GState → Direction → GState

/-- `Navigator.move_one_step`: press a direction, refresh, and report
whether the position changed. -/
def move_one_step (env : NavEnv) (s : GState) (d : Direction) : GState × Bool :=
  let s' := env s d
  (s', decide (s'.x ≠ s.x ∨ s'.y ≠ s.y))

/-- The inner `for _ in range(ESCAPE_STEPS)` loop of `_escape_stuck`:
repeated steps in one perpendicular direction until one moves. -/
def escapeDir (env : NavEnv) : Nat → GState → Direction → GState × List Direction × Bool
  | 0, s, _ => (s, [], false)
  | n + 1, s, d =>
    let r := move_one_step env s d
    if r.2 then (r.1, [d], true)
    else
      let t := escapeDir env n r.1 d
      (t.1, d :: t.2.1, t.2.2)

/-- `Navigator._escape_stuck`: try each perpendicular of the blocked
direction in turn; the trace records every directional press issued. -/
def escape_stuck (env : NavEnv) (s : GState) (blocked : Direction) :
    GState × List Direction × Bool :=
  let ps := blocked.perpendiculars
  let r1 := escapeDir env ESCAPE_STEPS s ps.1
  if r1.2.2 then r1
  else
    let r2 := escapeDir env ESCAPE_STEPS r1.1 ps.2
    (r2.1, r1.2.1 ++ r2.2.1, r2.2.2)

/-- The primary/secondary direction choice of `navigate_to`: the axis with
the larger remaining delta is primary, and the secondary falls back to the
primary when the other delta is zero. -/
def chooseDirs (dx dy : Int) : Direction × Direction :=
  if dx.natAbs ≥ dy.natAbs then
    let primary := if dx > 0 then Direction.right else Direction.left
    let secondary :=
      if dy > 0 then Direction.down else if dy ≠ 0 then Direction.up else primary
    (primary, secondary)
  else
    let primary := if dy > 0 then Direction.down else Direction.up
    let secondary :=
      if dx > 0 then Direction.right else if dx ≠ 0 then Direction.left else primary
    (primary, secondary)

/-- The `for step in range(max_steps)` loop of `Navigator.navigate_to`,
returning (result, final state, every directional press issued).  Each
iteration refreshes state, yields on battle, succeeds at the target, else
steps greedily with a blocked-primary fallback and runs the stuck/escape
policy at 5 consecutive position-preserving iterations. -/
def navLoop (env : NavEnv) (tx ty : Int) :
    Nat → GState → Nat → Int × Int → Bool × GState × List Direction
  | 0, s, _, _ => (false, s, [])
  | fuel + 1, s, stuck, last =>
    if s.in_battle then (false, s, [])
    else if s.x = tx ∧ s.y = ty then (true, s, [])
    else
      let dirs := chooseDirs (tx - s.x) (ty - s.y)
      let r1 := move_one_step env s dirs.1
      let step2 :=
        if r1.2 then (r1.1, [dirs.1])
        else
          let r2 := move_one_step env r1.1 dirs.2
          (r2.1, [dirs.1, dirs.2])
      let s2 := step2.1
      let tr0 := step2.2
      let newPos := (s2.x, s2.y)
      if newPos = last then
        if stuck + 1 ≥ MAX_STUCK_TRIES then
          let esc := escape_stuck env s2 dirs.1
          if esc.2.2 then
            let rest := navLoop env tx ty fuel esc.1 0 last
            (rest.1, rest.2.1, tr0 ++ esc.2.1 ++ rest.2.2)
          else (false, esc.1, tr0 ++ esc.2.1)
        else
          let rest := navLoop env tx ty fuel s2 (stuck + 1) last
          (rest.1, rest.2.1, tr0 ++ rest.2.2)
      else
        let rest := navLoop env tx ty fuel s2 0 newPos
        (rest.1, rest.2.1, tr0 ++ rest.2.2)

/-- `Navigator.navigate_to` (the Python default budget is 2000). -/
def navigate_to (env : NavEnv) (target_x target_y : Int) (s : GState)
    (max_steps : Nat) : Bool × GState × List Direction :=
  navLoop env target_x target_y max_steps s 0 (s.x, s.y)

/-- A world that never moves the player (walls everywhere). -/
def envC9 : NavEnv := fun s _ => s

/-- C9 counterexample input: standing exactly at the target, but in battle. -/
def gsC9 : GState := ⟨5, 7, true⟩

/-- C9 witness input: standing exactly at the target, not in battle. -/
def gsC9b : GState := ⟨3, 4, false⟩


-- ===========================================================================
-- Theorems for C5 and C8
-- ===========================================================================

/-- Every stored chart entry is 0.0, 0.5 or 2.0. -/
theorem chart_entry_values (a d : PType) :
    TYPE_CHART a d = none ∨ TYPE_CHART a d = some 0.0 ∨
    TYPE_CHART a d = some 0.5 ∨ TYPE_CHART a d = some 2.0 := by
  cases a <;> cases d <;>
    simp [TYPE_CHART, chartRowNormal, chartRowFighting, chartRowFlying,
      chartRowPoison, chartRowGround, chartRowRock, chartRowBug, chartRowGhost,
      chartRowFire, chartRowWater, chartRowGrass, chartRowElectric,
      chartRowPsychic, chartRowIce, chartRowDragon]

/-- A single chart lookup (with the 1.0 default) is 0, 0.5, 1 or 2. -/
theorem chartLookup_values (a d : PType) :
    chartLookup a d = 0 ∨ chartLookup a d = 0.5 ∨
    chartLookup a d = 1 ∨ chartLookup a d = 2 := by
  rcases chart_entry_values a d with h | h | h | h <;>
    rw [chartLookup, h] <;> norm_num

/-- The optional second-lookup contribution is 0, 0.5, 1 or 2. -/
theorem chartLookupOpt_values (a : PType) (d : Option PType) :
    chartLookupOpt a d = 0 ∨ chartLookupOpt a d = 0.5 ∨
    chartLookupOpt a d = 1 ∨ chartLookupOpt a d = 2 := by
  cases d with
  | none => right; right; left; norm_num [chartLookupOpt]
  | some t => exact chartLookup_values a t

/-- Product of two factors drawn from {0, 0.5, 1, 2} lies in
{0, 0.25, 0.5, 1, 2, 4}. -/
theorem chart_product_values (x y : Rat)
    (hx : x = 0 ∨ x = 0.5 ∨ x = 1 ∨ x = 2)
    (hy : y = 0 ∨ y = 0.5 ∨ y = 1 ∨ y = 2) :
    x * y = 0 ∨ x * y = 0.25 ∨ x * y = 0.5 ∨ x * y = 1 ∨
    x * y = 2 ∨ x * y = 4 := by
  rcases hx with rfl | rfl | rfl | rfl <;> rcases hy with rfl | rfl | rfl | rfl <;>
    norm_num

/-- `get_effectiveness` is the product of the two chart lookups. -/
theorem get_effectiveness_eq_product (a d1 : PType) (d2 : Option PType) :
    get_effectiveness a (d1, d2) = chartLookup a d1 * chartLookupOpt a d2 := by
  cases d2 <;> norm_num [get_effectiveness, chartLookup, chartLookupOpt]

/-- C5: for every attacking type and every defender pair (second type
optional), `get_effectiveness` equals the product of the two chart
lookups (missing entry or absent type contributing 1.0), and the result
is one of 0, 0.25, 0.5, 1, 2, 4. -/
theorem effectiveness_product_and_codomain :
    ∀ (a d1 : PType) (d2 : Option PType),
      get_effectiveness a (d1, d2) = chartLookup a d1 * chartLookupOpt a d2 ∧
      (get_effectiveness a (d1, d2) = 0 ∨ get_effectiveness a (d1, d2) = 0.25 ∨
       get_effectiveness a (d1, d2) = 0.5 ∨ get_effectiveness a (d1, d2) = 1 ∨
       get_effectiveness a (d1, d2) = 2 ∨ get_effectiveness a (d1, d2) = 4) := by
  intro a d1 d2
  refine ⟨get_effectiveness_eq_product a d1 d2, ?_⟩
  rw [get_effectiveness_eq_product a d1 d2]
  exact chart_product_values _ _ (chartLookup_values a d1) (chartLookupOpt_values a d2)

/-- C8: the three Gen 1 chart quirks are pinned exactly: Ghost vs Psychic
is an immunity (0.0), Ice vs Fire is neutral (1.0), Bug vs Poison is 0.5
while Poison vs Bug is neutral (1.0). -/
theorem type_chart_gen1_quirks :
    get_effectiveness .Ghost (.Psychic, none) = 0 ∧
    get_effectiveness .Ice (.Fire, none) = 1 ∧
    get_effectiveness .Bug (.Poison, none) = 0.5 ∧
    get_effectiveness .Poison (.Bug, none) = 1 := by
  refine ⟨?_, ?_, ?_, ?_⟩ <;>
    norm_num [get_effectiveness, TYPE_CHART, chartRowGhost, chartRowIce,
      chartRowBug, chartRowPoison]

-- ===========================================================================
-- Theorems for C4 (flee policy), C7 (item thresholds), C10 (zero max HP)
-- ===========================================================================

/-- C4: with all four move slots empty or out of PP, a wild battle
(flag 1) yields the flee action, while a trainer battle (flag 2) never
yields flee, whatever the rest of the state is. -/
theorem flee_wild_only (m : BattleMem) :
    (m.in_battle = 1 →
      (((get_move_ids m).zip (get_move_pps m)).all
        (fun p => p.1 == 0 || p.2 == 0)) = true →
      get_action m = .flee) ∧
    (m.in_battle = 2 → get_action m ≠ .flee) := by
  constructor
  · intro h1 h2
    have hf : should_flee m = true := by
      simp [get_move_ids, get_move_pps] at h2
      simp [should_flee, is_wild_battle, h1, get_move_ids, get_move_pps]
      omega
    simp [get_action, is_in_battle, h1, hf]
  · intro h2
    have hf : should_flee m = false := by
      simp [should_flee, is_wild_battle, h2]
    rcases hsu : should_use_item m with _ | it <;>
      simp [get_action, is_in_battle, h2, hf, hsu]

/-- C4 witness: the dead wild state flees; the same state as a trainer
battle does not. -/
theorem flee_wild_only_witness :
    get_action memWildDead = .flee ∧ get_action memTrainer ≠ .flee :=
  ⟨(flee_wild_only memWildDead).1 rfl (by decide),
   (flee_wild_only memTrainer).2 rfl⟩

/-- C7: with positive max HP, the item choice is exactly tiered on the
health quotient: strictly below 0.20 gives MAX POTION, in [0.20, 0.50)
gives POTION, at or above 0.50 gives no item; in particular a quotient of
exactly 0.20 gives the weak item. -/
theorem item_thresholds (m : BattleMem) (h : 0 < get_player_max_hp m) :
    (should_use_item m = some "MAX POTION" ↔
      (get_player_hp m : Rat) / (get_player_max_hp m : Rat) < 0.20) ∧
    (should_use_item m = some "POTION" ↔
      0.20 ≤ (get_player_hp m : Rat) / (get_player_max_hp m : Rat) ∧
      (get_player_hp m : Rat) / (get_player_max_hp m : Rat) < 0.50) ∧
    (should_use_item m = none ↔
      0.50 ≤ (get_player_hp m : Rat) / (get_player_max_hp m : Rat)) := by
  have hne : get_player_max_hp m ≠ 0 := Nat.pos_iff_ne_zero.mp h
  set q : Rat := (get_player_hp m : Rat) / (get_player_max_hp m : Rat) with hq
  have hsu : should_use_item m =
      (if q < 0.20 then some "MAX POTION"
       else if q < 0.50 then some "POTION" else none) := by
    rw [should_use_item]
    simp only [hne, if_neg, ← hq]
    rfl
  rw [hsu]
  split_ifs with h1 h2
  · refine ⟨by simp [h1], ?_, ?_⟩
    · simp only [Option.some.injEq]
      constructor
      · intro hc; exact absurd hc (by decide)
      · intro hc; linarith [hc.1]
    · constructor
      · intro hc; exact absurd hc (by simp)
      · intro hc; linarith
  · refine ⟨?_, by simp [le_of_not_lt h1, h2], ?_⟩
    · simp only [Option.some.injEq]
      constructor
      · intro hc; exact absurd hc (by decide)
      · intro hc; exact absurd hc h1
    · constructor
      · intro hc; exact absurd hc (by simp)
      · intro hc; linarith
  · refine ⟨?_, ?_, by simp [le_of_not_lt h2]⟩
    · constructor
      · intro hc; exact absurd hc (by simp)
      · intro hc; exact absurd hc h1
    · constructor
      · intro hc; exact absurd hc (by simp)
      · intro hc; exact absurd hc.2 h2
/-- C7 witness: at hp/max exactly 1/5 the weak item is chosen. -/
theorem item_thresholds_witness :
    0 < get_player_max_hp memC7 ∧
    (should_use_item memC7 = some "POTION" ↔
      0.20 ≤ (get_player_hp memC7 : Rat) / (get_player_max_hp memC7 : Rat) ∧
      (get_player_hp memC7 : Rat) / (get_player_max_hp memC7 : Rat) < 0.50) :=
  ⟨by decide, (item_thresholds memC7 (by decide)).2.1⟩

/-- C10: when the 16-bit max-HP read is 0, `should_use_item` answers
`None` before any division, so `get_action` can never produce an item
action on such a state. -/
theorem zero_max_hp_no_item (m : BattleMem) (h : get_player_max_hp m = 0) :
    should_use_item m = none ∧ ∀ s, get_action m ≠ .item s := by
  have hsu : should_use_item m = none := by
    rw [should_use_item]
    simp [h]
  refine ⟨hsu, fun s => ?_⟩
  rw [get_action]
  split_ifs with h1 h2 <;> simp [hsu]

/-- C10 witness: the all-zero HP state yields no item action. -/
theorem zero_max_hp_no_item_witness :
    get_player_max_hp memC10 = 0 ∧
    (should_use_item memC10 = none ∧ ∀ s, get_action memC10 ≠ .item s) :=
  ⟨by decide, zero_max_hp_no_item memC10 (by decide)⟩

-- ===========================================================================
-- Theorems for C6 (best-move selection)
-- ===========================================================================

/-- A single chart lookup is nonnegative. -/
theorem chartLookup_nonneg (a d : PType) : 0 ≤ chartLookup a d := by
  rcases chartLookup_values a d with h | h | h | h <;> rw [h] <;> norm_num

/-- The optional second lookup is nonnegative. -/
theorem chartLookupOpt_nonneg (a : PType) (d : Option PType) :
    0 ≤ chartLookupOpt a d := by
  rcases chartLookupOpt_values a d with h | h | h | h <;> rw [h] <;> norm_num

/-- Effectiveness multipliers are nonnegative. -/
theorem get_effectiveness_nonneg (a : PType) (ds : PType × Option PType) :
    0 ≤ get_effectiveness a ds := by
  obtain ⟨d1, d2⟩ := ds
  rw [get_effectiveness_eq_product]
  exact mul_nonneg (chartLookup_nonneg a d1) (chartLookupOpt_nonneg a d2)

/-- Move scores are nonnegative (so any scored slot beats the `-1.0`
sentinel). -/
theorem scoreOf_nonneg (enemy : PType × Option PType) (mv : MoveInfo) :
    0 ≤ scoreOf enemy mv := by
  rw [scoreOf]
  split_ifs
  · norm_num
  · exact mul_nonneg (by positivity) (get_effectiveness_nonneg _ _)

theorem optOr_none_right (f : Option Nat) : optOr f none = f := by
  cases f <;> rfl

theorem optOr_absorb (f : Option Nat) (i : Nat) (x : Option Nat) :
    optOr (optOr f (some i)) x = optOr f (some i) := by
  cases f <;> rfl

/-- A skipped slot (empty or out of PP) leaves the loop state unchanged. -/
theorem bestStep_skip (enemy : PType × Option PType) (s : BestState)
    (i mid pp : Nat) (hu : mid = 0 ∨ pp = 0) :
    bestStep enemy s i mid pp = s := by
  rw [bestStep]
  exact if_pos hu

/-- A usable slot with an uncatalogued id only updates the fallback. -/
theorem bestStep_unknown (enemy : PType × Option PType) (bo : Option (Nat × Rat))
    (f : Option Nat) (i mid pp : Nat)
    (hu : ¬(mid = 0 ∨ pp = 0)) (hmd : MOVE_DATA mid = none) :
    bestStep enemy (packBest bo f) i mid pp = packBest bo (optOr f (some i)) := by
  rw [bestStep, if_neg hu, hmd]
  cases f <;> simp [packBest, optOr]

/-- A usable catalogued slot updates the fallback and folds its score into
the first-strict-argmax state. -/
theorem bestStep_known (enemy : PType × Option PType) (bo : Option (Nat × Rat))
    (f : Option Nat) (i mid pp : Nat) (mv : MoveInfo)
    (hu : ¬(mid = 0 ∨ pp = 0)) (hmd : MOVE_DATA mid = some mv) :
    bestStep enemy (packBest bo f) i mid pp
      = packBest (argmaxStep bo (i, scoreOf enemy mv)) (optOr f (some i)) := by
  have hsc := scoreOf_nonneg enemy mv
  have h1 : (-1.0 : Rat) < scoreOf enemy mv := by linarith
  rw [bestStep, if_neg hu, hmd]
  cases bo with
  | none =>
    cases f with
    | none => simp [packBest, score0, optOr, argmaxStep, h1]
    | some a => simp [packBest, score0, optOr, argmaxStep, h1]
  | some q =>
    cases f with
    | none =>
      simp only [packBest, score0, optOr, argmaxStep, Option.map_some', Option.getD_some]
      split_ifs with h <;> simp_all
    | some a =>
      simp only [packBest, score0, optOr, argmaxStep, Option.map_some', Option.getD_some]
      split_ifs with h <;> simp_all

/-- Loop invariant of `get_best_move`: running the slot loop from any
packed state folds the remaining scored slots through the
first-strict-argmax scan and or-combines the fallback with the first
remaining usable slot. -/
theorem bestLoop_eq_spec (enemy : PType × Option PType) (slots : List (Nat × Nat)) :
    ∀ (i : Nat) (bo : Option (Nat × Rat)) (f : Option Nat),
      bestLoop enemy i slots (packBest bo f) =
        packBest (List.foldl argmaxStep bo (scoredFrom enemy i slots))
                 (optOr f (firstUsableFrom i slots)) := by
  induction slots with
  | nil =>
    intro i bo f
    simp [bestLoop, scoredFrom, firstUsableFrom, List.enumFrom, optOr_none_right]
  | cons hd rest ih =>
    intro i bo f
    obtain ⟨mid, pp⟩ := hd
    rw [show bestLoop enemy i ((mid, pp) :: rest) (packBest bo f)
          = bestLoop enemy (i + 1) rest (bestStep enemy (packBest bo f) i mid pp) from rfl]
    by_cases hu : (mid = 0 ∨ pp = 0)
    · have hub : usableSlot (mid, pp) = false := by
        simp [usableSlot]; omega
      rw [bestStep_skip enemy _ i mid pp hu, ih (i + 1) bo f]
      have hsc : scoredFrom enemy i ((mid, pp) :: rest) = scoredFrom enemy (i + 1) rest := by
        simp [scoredFrom, List.enumFrom, hub]
      have hfu : firstUsableFrom i ((mid, pp) :: rest) = firstUsableFrom (i + 1) rest := by
        simp [firstUsableFrom, List.enumFrom, hub]
      rw [hsc, hfu]
    · have hub : usableSlot (mid, pp) = true := by
        simp [usableSlot]; omega
      have hfu : firstUsableFrom i ((mid, pp) :: rest) = some i := by
        simp [firstUsableFrom, List.enumFrom, hub]
      rcases hmd : MOVE_DATA mid with _ | mv
      · rw [bestStep_unknown enemy bo f i mid pp hu hmd,
            ih (i + 1) bo (optOr f (some i))]
        have hsc : scoredFrom enemy i ((mid, pp) :: rest) = scoredFrom enemy (i + 1) rest := by
          simp [scoredFrom, List.enumFrom, hub, hmd]
        rw [hsc, hfu, optOr_absorb]
      · rw [bestStep_known enemy bo f i mid pp mv hu hmd,
            ih (i + 1) (argmaxStep bo (i, scoreOf enemy mv)) (optOr f (some i))]
        have hsc : scoredFrom enemy i ((mid, pp) :: rest)
            = (i, scoreOf enemy mv) :: scoredFrom enemy (i + 1) rest := by
          simp [scoredFrom, List.enumFrom, hub, hmd]
        rw [hsc, hfu, optOr_absorb]
        rfl

/-- C6 (as amended): `get_best_move` scores exactly the usable slots whose
ids are in the move catalogue and returns the first slot with the
strictly highest score; if no slot could be scored it returns the first
usable slot; with no usable slot at all it returns slot 0. -/
theorem get_best_move_eq_spec (m : BattleMem) :
    get_best_move m = bestMoveSpec m := by
  rw [get_best_move, bestMoveSpec]
  rw [show (⟨none, -1.0, none⟩ : BestState) = packBest none none from rfl]
  rw [bestLoop_eq_spec (get_enemy_types m) ((get_move_ids m).zip (get_move_pps m)) 0 none none]
  rw [show scoredFrom (get_enemy_types m) 0 ((get_move_ids m).zip (get_move_pps m))
        = scoredSlots (get_enemy_types m) ((get_move_ids m).zip (get_move_pps m)) from rfl]
  rw [show optOr none (firstUsableFrom 0 ((get_move_ids m).zip (get_move_pps m)))
        = firstUsable ((get_move_ids m).zip (get_move_pps m)) from rfl]
  rw [show List.foldl argmaxStep none
          (scoredSlots (get_enemy_types m) ((get_move_ids m).zip (get_move_pps m)))
        = argmaxFirst (scoredSlots (get_enemy_types m) ((get_move_ids m).zip (get_move_pps m)))
      from rfl]
  rcases argmaxFirst (scoredSlots (get_enemy_types m) ((get_move_ids m).zip (get_move_pps m)))
    with _ | p
  · rcases firstUsable ((get_move_ids m).zip (get_move_pps m)) with _ | fb <;> rfl
  · rfl

set_option maxHeartbeats 2000000 in
/-- C6 counterexample: on `memC6ce` every slot that receives a score
scores ≤ 0 and the first slot with remaining uses is slot 0, yet
`get_best_move` returns slot 1 (the claim's fallback rule would require
slot 0). -/
theorem get_best_move_fallback_counterexample :
    (∀ p ∈ scoredSlots (get_enemy_types memC6ce)
        ((get_move_ids memC6ce).zip (get_move_pps memC6ce)), p.2 ≤ 0) ∧
    firstUsable ((get_move_ids memC6ce).zip (get_move_pps memC6ce)) = some 0 ∧
    get_best_move memC6ce = 1 := by
  have h99 : MOVE_DATA 0x99 = none := rfl
  have h7A : MOVE_DATA 0x7A = some ⟨"Lick", .Ghost, 20, 30⟩ := rfl
  have hs0 : SPECIES_TYPES 0 = none := rfl
  have hen : get_enemy_types memC6ce = (.Normal, none) := by
    rw [get_enemy_types]
    rw [show memC6ce.enemy_species = 0 from rfl, hs0]
    rfl
  have hids : get_move_ids memC6ce = [0x99, 0x7A, 0, 0] := rfl
  have hpps : get_move_pps memC6ce = [5, 5, 0, 0] := rfl
  have hlick : scoreOf (PType.Normal, none) ⟨"Lick", .Ghost, 20, 30⟩ = 0 := by
    norm_num [scoreOf, get_effectiveness, TYPE_CHART, chartRowGhost]
  refine ⟨?_, ?_, ?_⟩
  · intro p hp
    rw [hen, hids, hpps] at hp
    simp only [scoredSlots, List.enum, List.enumFrom, List.zip_cons_cons,
      List.zip_nil_right, List.filterMap_cons, List.filterMap_nil, usableSlot,
      h99, h7A, hlick] at hp
    norm_num at hp
    rw [hp, hlick]
  · rw [hids, hpps]
    simp [firstUsable, usableSlot, List.enum, List.enumFrom, List.findSome?]
  · rw [get_best_move, hen, hids, hpps]
    simp only [List.zip_cons_cons, List.zip_nil_right, bestLoop,
      bestStep, h99, h7A, hlick]
    norm_num [Option.some_ne_none]

-- ===========================================================================
-- Theorems for C1, C2, C3 (progression engine)
-- ===========================================================================

set_option maxRecDepth 4000 in
theorem popcount_byte_le : ∀ b : Nat, b < 256 → popcount b ≤ 8 := by decide

theorem stepRanges_sub_dispatch :
    ∀ c : Nat, c ≤ 8 → ∀ t ∈ stepRanges c, t ∈ dispatchSteps := by decide

theorem stepRanges_ne_nil : ∀ c : Nat, c ≤ 8 → stepRanges c ≠ [] := by decide

theorem dispatch_mem_order :
    ∀ s ∈ dispatchSteps, s ∈ STEP_ORDER ∧ STEP_ORDER.indexOf s < STEP_ORDER.length - 1 := by
  decide

theorem get_current_step_mem_dispatch (s : String) (b : Nat) (hb : b < 256) :
    get_current_step s b ∈ dispatchSteps := by
  have hc : popcount b ≤ 8 := popcount_byte_le b hb
  rw [get_current_step]
  by_cases hm : s ∈ stepRanges (popcount b)
  · simp only [if_pos hm]
    exact stepRanges_sub_dispatch _ hc _ hm
  · simp only [if_neg hm]
    cases hv : stepRanges (popcount b) with
    | nil => exact absurd hv (stepRanges_ne_nil _ hc)
    | cons v rest =>
      exact stepRanges_sub_dispatch _ hc v (by rw [hv]; exact List.mem_cons_self v rest)

theorem dictFind_pop (d : List (String × Nat)) (k : String) :
    dictFind (dictPop d k) k = none := by
  induction d with
  | nil => rfl
  | cons q rest ih =>
    by_cases h : q.1 = k
    · simpa [dictPop, h] using ih
    · simpa [dictPop, dictFind, List.filter_cons, h, List.find?] using ih

-- C1 main theorem
theorem run_next_step_stall (handler : HandlerFn) (gPre gPost : GSView) (p : PMState)
    (step : String) (r : Nat)
    (hb : gPre.badges < 256)
    (hstep : step = get_current_step p.state.step gPre.badges)
    (hr : r = dictGetD p.stall_retries step + 1)
    (hcond : stallCond step gPost.map_id
        (pushWindow p.stall_history (step, gPost.map_id, gPost.player_x, gPost.player_y))
        = true) :
    (r < STALL_MAX_RETRIES →
      run_next_step handler gPre gPost p =
        ({ state := (handler step (p.state, p.disk)).1,
           disk := (handler step (p.state, p.disk)).2,
           stall_history :=
             pushWindow p.stall_history (step, gPost.map_id, gPost.player_x, gPost.player_y),
           stall_retries := dictSet p.stall_retries step r }, .ranHandler step)) ∧
    (r ≥ STALL_MAX_RETRIES →
      (run_next_step handler gPre gPost p).2 = .forcedSkip step ∧
      (run_next_step handler gPre gPost p).1.stall_history = [] ∧
      dictFind (run_next_step handler gPre gPost p).1.stall_retries step = none ∧
      (run_next_step handler gPre gPost p).1.state.step
        = STEP_ORDER.getD (STEP_ORDER.indexOf step + 1) p.state.step ∧
      step ∈ (run_next_step handler gPre gPost p).1.state.completed_steps ∧
      (run_next_step handler gPre gPost p).1.disk
        = (run_next_step handler gPre gPost p).1.state) := by
  have hmem : step ∈ dispatchSteps := hstep ▸ get_current_step_mem_dispatch _ _ hb
  have horder := dispatch_mem_order step hmem
  constructor
  · intro hlt
    rw [run_next_step]
    simp only [← hstep, hcond, if_true, ← hr]
    rw [if_neg (by omega)]
    rw [runDispatch, if_pos hmem]
  · intro hge
    have hrun : run_next_step handler gPre gPost p =
        (mark_complete gPost.badges step
          { p with stall_history := [],
                   stall_retries := dictPop (dictSet p.stall_retries step r) step },
         .forcedSkip step) := by
      rw [run_next_step]
      simp only [← hstep, hcond, if_true, ← hr]
      rw [if_pos (by omega)]
    rw [hrun]
    refine ⟨rfl, rfl, ?_, ?_, ?_, ?_⟩
    · simp only [mark_complete]
      exact dictFind_pop _ _
    · simp only [mark_complete, if_pos horder]
    · simp only [mark_complete]
      by_cases hcm : step ∈ p.state.completed_steps
      · simpa [hcm] using hcm
      · simp [hcm]
    · simp only [mark_complete]

-- C2 counterexample
theorem get_current_step_rollback :
    get_current_step "mt_moon" 0 = "pallet_start" ∧
    STEP_ORDER.indexOf "pallet_start" < STEP_ORDER.indexOf "mt_moon" := by decide

-- C2 amended
theorem get_current_step_monotone (saved : String) (badges : Nat)
    (h : saved ∈ stepRanges (popcount badges) ∨
         (stepRanges (popcount badges) ≠ [] ∧
          STEP_ORDER.indexOf saved ≤
            STEP_ORDER.indexOf ((stepRanges (popcount badges)).headD "game_complete"))) :
    STEP_ORDER.indexOf saved ≤ STEP_ORDER.indexOf (get_current_step saved badges) := by
  rw [get_current_step]
  by_cases hm : saved ∈ stepRanges (popcount badges)
  · simp [hm]
  · rcases h with h | ⟨hne, hle⟩
    · exact absurd h hm
    · simp only [if_neg hm]
      cases hv : stepRanges (popcount badges) with
      | nil => exact absurd hv hne
      | cons v rest =>
        rw [hv] at hle
        simpa using hle

-- C3
theorem sync_with_badges_spec (p : PMState) (badges : Nat)
    (hs : p.state.step ∈ STEP_ORDER) :
    (badge_to_step (popcount badges) = none → sync_with_badges p badges = p) ∧
    (∀ e, badge_to_step (popcount badges) = some e →
      (STEP_ORDER.indexOf p.state.step < STEP_ORDER.indexOf e →
        (sync_with_badges p badges).state.step = e ∧
        (sync_with_badges p badges).state.badges = badges ∧
        (sync_with_badges p badges).disk = (sync_with_badges p badges).state) ∧
      (STEP_ORDER.indexOf e ≤ STEP_ORDER.indexOf p.state.step →
        sync_with_badges p badges = p)) ∧
    STEP_ORDER.indexOf p.state.step ≤
      STEP_ORDER.indexOf (sync_with_badges p badges).state.step := by
  refine ⟨?_, ?_, ?_⟩
  · intro hnone
    rw [sync_with_badges, hnone]
  · intro e he
    constructor
    · intro hlt
      rw [sync_with_badges, he]
      simp [if_pos hs, if_pos hlt]
    · intro hge
      rw [sync_with_badges, he]
      simp only [if_pos hs]
      rw [if_neg (by omega)]
  · rcases he : badge_to_step (popcount badges) with _ | e
    · rw [sync_with_badges, he]
    · rw [sync_with_badges, he]
      simp only [if_pos hs]
      by_cases hlt : STEP_ORDER.indexOf p.state.step < STEP_ORDER.indexOf e
      · simp only [if_pos hlt]
        omega
      · simp only [if_neg hlt]
        exact le_refl _

-- ===========================================================================
-- Theorems for C9 (navigate_to at target)
-- ===========================================================================

/-- C9 counterexample: already standing at the target but with the battle
flag set, `navigate_to` returns failure (with zero input), not success. -/
theorem navigate_to_at_target_in_battle_counterexample :
    gsC9.x = 5 ∧ gsC9.y = 7 ∧
    navigate_to envC9 5 7 gsC9 2000 = (false, gsC9, []) := by
  refine ⟨rfl, rfl, ?_⟩
  rfl

/-- C9 (as amended): with at least one loop iteration available and no
battle in progress, calling `navigate_to` while already at the target
returns success immediately, leaves the state untouched and issues zero
directional input. -/
theorem navigate_to_at_target (env : NavEnv) (tx ty : Int) (s : GState) (fuel : Nat)
    (hfuel : 1 ≤ fuel) (hb : s.in_battle = false) (hx : s.x = tx) (hy : s.y = ty) :
    navigate_to env tx ty s fuel = (true, s, []) := by
  obtain ⟨n, rfl⟩ : ∃ n, fuel = n + 1 := ⟨fuel - 1, by omega⟩
  rw [navigate_to, navLoop]
  simp [hb, hx, hy]

/-- C9 witness: at the target, out of battle, with the default budget. -/
theorem navigate_to_at_target_witness :
    1 ≤ 2000 ∧ gsC9b.in_battle = false ∧ gsC9b.x = 3 ∧ gsC9b.y = 4 ∧
    navigate_to envC9 3 4 gsC9b 2000 = (true, gsC9b, []) :=
  ⟨by decide, rfl, rfl, rfl,
   navigate_to_at_target envC9 3 4 gsC9b 2000 (by decide) rfl rfl rfl⟩

-- ===========================================================================
-- Witnesses for C1, C2, C3
-- ===========================================================================

/-- C1 witness: on `pmW` (retry counter at 4) a third identical snapshot
forces the skip: outcome `forcedSkip`, window cleared, counter removed,
step advanced, completion recorded, state persisted. -/
theorem run_next_step_stall_witness :
    (5 : Nat) ≥ STALL_MAX_RETRIES ∧
    ((run_next_step handlerW gsvPreW gsvPostW pmW).2 = .forcedSkip "pallet_start" ∧
     (run_next_step handlerW gsvPreW gsvPostW pmW).1.stall_history = [] ∧
     dictFind (run_next_step handlerW gsvPreW gsvPostW pmW).1.stall_retries
       "pallet_start" = none ∧
     (run_next_step handlerW gsvPreW gsvPostW pmW).1.state.step
       = STEP_ORDER.getD (STEP_ORDER.indexOf "pallet_start" + 1) pmW.state.step ∧
     "pallet_start" ∈ (run_next_step handlerW gsvPreW gsvPostW pmW).1.state.completed_steps ∧
     (run_next_step handlerW gsvPreW gsvPostW pmW).1.disk
       = (run_next_step handlerW gsvPreW gsvPostW pmW).1.state) :=
  ⟨by decide,
   (run_next_step_stall handlerW gsvPreW gsvPostW pmW "pallet_start" 5 (by decide)
      (by decide) (by decide) (by decide)).2 (by decide)⟩

/-- C2 witness: a persisted step not ahead of its badge tier is never
rolled back (here: `pallet_start` with 2 badges is advanced). -/
theorem get_current_step_monotone_witness :
    ("pallet_start" ∈ stepRanges (popcount 3) ∨
     (stepRanges (popcount 3) ≠ [] ∧
      STEP_ORDER.indexOf "pallet_start" ≤
        STEP_ORDER.indexOf ((stepRanges (popcount 3)).headD "game_complete"))) ∧
    STEP_ORDER.indexOf "pallet_start" ≤
      STEP_ORDER.indexOf (get_current_step "pallet_start" 3) :=
  ⟨by decide, get_current_step_monotone "pallet_start" 3 (by decide)⟩

/-- C3 witness: `pallet_start` with 5 badges (byte 31) is advanced to
`fuchsia_koga` and persisted. -/
theorem sync_with_badges_spec_witness :
    pmSyncW.state.step ∈ STEP_ORDER ∧
    ((sync_with_badges pmSyncW 31).state.step = "fuchsia_koga" ∧
     (sync_with_badges pmSyncW 31).state.badges = 31 ∧
     (sync_with_badges pmSyncW 31).disk = (sync_with_badges pmSyncW 31).state) :=
  ⟨by decide,
   ((sync_with_badges_spec pmSyncW 31 (by decide)).2.1 "fuchsia_koga" (by decide)).1
     (by decide)⟩
